import Mathlib

/-!
Verification of the routing/dispatch behaviour of a minimal HTTP file server
(src/main.py).  The handler class routes GET requests by path: "/" and
"/search" are answered from fixed template files, "/static/..." paths are
served from disk with a MIME type guessed from the file extension, and every
other path is answered with the error template.  A failed file read falls back
to a 404 response built from the file "error.html".

The embedding models:
  - the filesystem as a map from path strings to optional byte lists
    (none = the open/read raises);
  - the connection as the list of primitive response events the handler
    emits (status line, header, end of headers, body write);
  - the recursion limit of the runtime as an explicit fuel argument, since
    the read-failure fallback of send_html_file re-enters send_html_file and
    can do so forever when "error.html" is itself unreadable.  A run that
    exhausts the fuel returns the events written so far paired with false
    (abnormal termination, mirroring a recursion-limit error).
-/

/-- Bytes of a file, as natural numbers. -/
abbrev Bytes := List Nat

/-- The filesystem collaborator: a path string resolves to the file bytes, or
to none when opening or reading the file fails for any reason. -/
abbrev FS := String → Option Bytes

/-- A primitive write the handler performs on the active connection:
the status line of send_response, a header line of send_header, the blank
line of end_headers, or a body write on wfile. -/
inductive Event where
  | sendResponse : Nat → Event
  | sendHeader : String → String → Event
  | endHeaders : Event
  | write : Bytes → Event
deriving DecidableEq, Repr

/-- True on a status-line event. -/
def isSendResponse : Event → Bool
  | Event.sendResponse _ => true
  | _ => false

/-- True on a body-write event. -/
def isWrite : Event → Bool
  | Event.write _ => true
  | _ => false

/-- Characters of a request URL before its fragment part (everything from
the first "#") and before its query part (everything from the first "?"). -/
def url_path_chars (cs : List Char) : List Char :=
  (cs.takeWhile (fun c => c ≠ '#')).takeWhile (fun c => c ≠ '?')

/-- The path component of a request URL, as urllib.parse.urlparse extracts it
for the origin-form request targets this server receives: the fragment part
and then the query part are stripped. -/
def urlparse_path (url : String) : String :=
  String.mk (url_path_chars url.data)

/-- Prefix test on strings (the startswith of the source), stated on the
character lists so it evaluates by reduction. -/
def str_startsWith (s pre : String) : Bool :=
  pre.data.isPrefixOf s.data

/-- The string without its first character (the [1:] slice of the source). -/
def drop_lead (s : String) : String :=
  String.mk (s.data.drop 1)

/-- Split a character list on a separator character; always returns at least
one (possibly empty) segment, like str.split of a single character. -/
def split_char (c : Char) : List Char → List (List Char)
  | [] => [[]]
  | a :: rest =>
    let r := split_char c rest
    if a = c then [] :: r
    else
      match r with
      | [] => [[a]]
      | h :: t => (a :: h) :: t

/-- A representative subset of the standard extension-to-MIME table the
Python mimetypes module uses (keys are lowercase extensions including the
dot). -/
def mime_table : List (String × String) :=
  [(".html", "text/html"), (".css", "text/css"),
   (".js", "application/javascript"), (".jpg", "image/jpeg"),
   (".jpeg", "image/jpeg"), (".png", "image/png"), (".gif", "image/gif"),
   (".txt", "text/plain"), (".json", "application/json"),
   (".svg", "image/svg+xml")]

/-- Last path component of a slash-separated path. -/
def last_comp (cs : List Char) : List Char :=
  (split_char '/' cs).getLastD []

/-- The extension of a path in the sense of os.path.splitext: the suffix of
the last component from its last dot, where dots leading the component do not
count (so ".bashrc" has no extension). -/
def ext_chars (cs : List Char) : List Char :=
  let b := last_comp cs
  let leading := (b.takeWhile (fun c => c = '.')).length
  let rest := b.drop leading
  match split_char '.' rest with
  | [] => []
  | [_] => []
  | parts => '.' :: parts.getLastD []

/-- Model of mimetypes.guess_type restricted to the table above: look the
lowercased extension up, none when it is unrecognized or absent. -/
def guess_type (p : String) : Option String :=
  mime_table.lookup (String.mk ((ext_chars p.data).map Char.toLower))

/-- HttpHandler.send_html_file: send the status line, a text/html
Content-type header and the header terminator, then try to read the file and
write its bytes; if the read fails, fall back to send_html_file of
"error.html" with status 404.  The fuel argument bounds the recursion depth
of that fallback; at fuel 0 the run aborts (false) with no further writes. -/
def send_html_file (fs : FS) : Nat → String → Nat → List Event × Bool
  | 0, _, _ => ([], false)
  | fuel + 1, filename, status =>
    let hdr : List Event :=
      [Event.sendResponse status,
       Event.sendHeader "Content-type" "text/html",
       Event.endHeaders]
    match fs filename with
    | some data => (hdr ++ [Event.write data], true)
    | none =>
      let fallback := send_html_file fs fuel "error.html" 404
      (hdr ++ fallback.1, fallback.2)

/-- HttpHandler.send_static: the file path is the raw request target with
only the leading slash removed (the query string, if any, stays in it); the
MIME type is guessed from that path.  If the file reads, send status 200, the
Content-type header (application/octet-stream when the guess failed), the
header terminator and the bytes; on a read failure nothing has been written
yet and the handler falls back to send_html_file of "error.html" with 404. -/
def send_static (fs : FS) (fuel : Nat) (url : String) : List Event × Bool :=
  let file_path := drop_lead url
  let mime_type := guess_type file_path
  match fs file_path with
  | some data =>
    ([Event.sendResponse 200,
      Event.sendHeader "Content-type"
        (mime_type.getD "application/octet-stream"),
      Event.endHeaders, Event.write data], true)
  | none => send_html_file fs fuel "error.html" 404

/-- HttpHandler.do_GET: route on the parsed path component of the request
target.  "/" serves templates/index.html, "/search" serves
templates/search.html, a "/static/" prefix goes to send_static (which gets
the raw request target), and everything else serves templates/error.html
with the default status 200. -/
def do_GET (fs : FS) (fuel : Nat) (url : String) : List Event × Bool :=
  let pr_path := urlparse_path url
  if pr_path = "/" then send_html_file fs fuel "templates/index.html" 200
  else if pr_path = "/search" then
    send_html_file fs fuel "templates/search.html" 200
  else if str_startsWith pr_path "/static/" then send_static fs fuel url
  else send_html_file fs fuel "templates/error.html" 200

/-- The request handler as the spec names it. -/
def handle (fs : FS) (fuel : Nat) (url : String) : List Event × Bool :=
  do_GET fs fuel url

/-- The file each routing branch of do_GET resolves its request to, read off
the branch structure of do_GET (the static branch strips only the leading
slash of the raw request target). -/
def resolved_file (url : String) : String :=
  let pr_path := urlparse_path url
  if pr_path = "/" then "templates/index.html"
  else if pr_path = "/search" then "templates/search.html"
  else if str_startsWith pr_path "/static/" then drop_lead url
  else "templates/error.html"

/-- The serve_forever loop of the server, restricted to GET dispatch: each
request in the list is handled independently, no state is carried from one
request to the next (the handler class keeps no mutable state across
requests). -/
def serve (fs : FS) (fuel : Nat) (reqs : List String) : List (List Event × Bool) :=
  reqs.map (do_GET fs fuel)

/-- A full HTML response block as the handler writes it: status line,
text/html Content-type header, header terminator, body. -/
def html_response (status : Nat) (body : Bytes) : List Event :=
  [Event.sendResponse status,
   Event.sendHeader "Content-type" "text/html",
   Event.endHeaders, Event.write body]

/-- The header block send_html_file writes before attempting its read. -/
def html_head (status : Nat) : List Event :=
  [Event.sendResponse status,
   Event.sendHeader "Content-type" "text/html",
   Event.endHeaders]

/-- Resolution of "." and ".." segments in a relative path, as the operating
system resolves them when a file is opened: "." and empty segments vanish,
".." removes the preceding segment when one exists. -/
def norm_segs : List (List Char) → List (List Char) → List (List Char)
  | acc, [] => acc.reverse
  | acc, [] :: rest => norm_segs acc rest
  | acc, ['.'] :: rest => norm_segs acc rest
  | acc, ['.', '.'] :: rest =>
    match acc with
    | [] => norm_segs [['.', '.']] rest
    | ['.', '.'] :: _ => norm_segs (['.', '.'] :: acc) rest
    | _ :: t => norm_segs t rest
  | acc, s :: rest => norm_segs (s :: acc) rest

/-- Normalized form of a slash-separated relative path. -/
def normalizePath (p : String) : String :=
  String.mk (List.intercalate ['/'] (norm_segs [] (split_char '/' p.data)))

/-- A sample on-disk layout used to instantiate theorems: distinct bytes in
templates/index.html, templates/search.html, templates/error.html,
error.html and static/style.css; every other path fails to read. -/
def fsA : FS := fun p =>
  if p = "templates/index.html" then some [1]
  else if p = "templates/search.html" then some [2]
  else if p = "templates/error.html" then some [3]
  else if p = "error.html" then some [4]
  else if p = "static/style.css" then some [5]
  else none

/-- A layout where only the fallback error page exists. -/
def fsOnlyErr : FS := fun p => if p = "error.html" then some [9] else none

/-- A layout where the fallback file "error.html" is unreadable but
templates/error.html exists, with distinct contents marking which of the two
files a response body came from. -/
def fsBoth : FS := fun p =>
  if p = "error.html" then some [1]
  else if p = "templates/error.html" then some [2]
  else none

/-- A layout with one static asset and the fallback error page. -/
def fsStatic : FS := fun p =>
  if p = "static/a.css" then some [7]
  else if p = "error.html" then some [9]
  else none

/-- A completely unreadable filesystem. -/
def fsNone : FS := fun _ => none

/-- A disk holding a single file "secret.txt" at the project root, addressed
through operating-system path resolution (so "static/../secret.txt" reaches
it). -/
def fsSecret : FS := fun p =>
  if normalizePath p = "secret.txt" then some [42] else none

/-! Helper lemmas about the two senders and the dispatch. -/

theorem send_html_file_ok (fs : FS) (fuel : Nat) (filename : String)
    (status : Nat) (d : Bytes) (hd : fs filename = some d) (hf : 1 ≤ fuel) :
    send_html_file fs fuel filename status = (html_response status d, true) := by
  cases fuel with
  | zero => omega
  | succ m => simp [send_html_file, hd, html_response]

theorem send_html_file_fb (fs : FS) (fuel : Nat) (filename : String)
    (status : Nat) (e : Bytes) (hn : fs filename = none)
    (he : fs "error.html" = some e) (hf : 2 ≤ fuel) :
    send_html_file fs fuel filename status =
      (html_head status ++ html_response 404 e, true) := by
  cases fuel with
  | zero => omega
  | succ m =>
    cases m with
    | zero => omega
    | succ k => simp [send_html_file, hn, he, html_head, html_response]

theorem send_static_ok (fs : FS) (fuel : Nat) (url : String) (d : Bytes)
    (hd : fs (drop_lead url) = some d) :
    send_static fs fuel url =
      ([Event.sendResponse 200,
        Event.sendHeader "Content-type"
          ((guess_type (drop_lead url)).getD "application/octet-stream"),
        Event.endHeaders, Event.write d], true) := by
  simp [send_static, hd]

theorem send_static_fb (fs : FS) (fuel : Nat) (url : String) (e : Bytes)
    (hn : fs (drop_lead url) = none) (he : fs "error.html" = some e)
    (hf : 1 ≤ fuel) :
    send_static fs fuel url = (html_response 404 e, true) := by
  have h : send_static fs fuel url = send_html_file fs fuel "error.html" 404 := by
    simp [send_static, hn]
  rw [h, send_html_file_ok fs fuel "error.html" 404 e he hf]

theorem do_GET_home (fs : FS) (fuel : Nat) (url : String)
    (h : urlparse_path url = "/") :
    do_GET fs fuel url = send_html_file fs fuel "templates/index.html" 200 := by
  simp [do_GET, h]

theorem do_GET_search (fs : FS) (fuel : Nat) (url : String)
    (h : urlparse_path url = "/search") :
    do_GET fs fuel url = send_html_file fs fuel "templates/search.html" 200 := by
  simp [do_GET, h]

theorem do_GET_static (fs : FS) (fuel : Nat) (url : String)
    (h1 : urlparse_path url ≠ "/") (h2 : urlparse_path url ≠ "/search")
    (h3 : str_startsWith (urlparse_path url) "/static/" = true) :
    do_GET fs fuel url = send_static fs fuel url := by
  simp [do_GET, h1, h2, h3]

theorem do_GET_other (fs : FS) (fuel : Nat) (url : String)
    (h1 : urlparse_path url ≠ "/") (h2 : urlparse_path url ≠ "/search")
    (h3 : str_startsWith (urlparse_path url) "/static/" = false) :
    do_GET fs fuel url = send_html_file fs fuel "templates/error.html" 200 := by
  simp [do_GET, h1, h2, h3]

theorem resolved_file_home (url : String) (h : urlparse_path url = "/") :
    resolved_file url = "templates/index.html" := by
  simp [resolved_file, h]

theorem resolved_file_search (url : String) (h : urlparse_path url = "/search") :
    resolved_file url = "templates/search.html" := by
  simp [resolved_file, h]

theorem resolved_file_static (url : String)
    (h1 : urlparse_path url ≠ "/") (h2 : urlparse_path url ≠ "/search")
    (h3 : str_startsWith (urlparse_path url) "/static/" = true) :
    resolved_file url = drop_lead url := by
  simp [resolved_file, h1, h2, h3]

theorem resolved_file_other (url : String)
    (h1 : urlparse_path url ≠ "/") (h2 : urlparse_path url ≠ "/search")
    (h3 : str_startsWith (urlparse_path url) "/static/" = false) :
    resolved_file url = "templates/error.html" := by
  simp [resolved_file, h1, h2, h3]

/-! Claim theorems. -/

/-- C1: for every routing branch (home, search, static, unmatched), if the
resolved file cannot be opened or read, the handler finishes its run by
writing the error-page resource as a full response with Content-Type
text/html and status 404 (in particular a request for an absent static file
such as /static/missing.css yields the error-page body with status 404). -/
theorem c1_read_failure_404 (fs : FS) (fuel : Nat) (url : String) (e : Bytes)
    (hres : fs (resolved_file url) = none) (he : fs "error.html" = some e)
    (hf : 2 ≤ fuel) :
    ∃ pre, do_GET fs fuel url = (pre ++ html_response 404 e, true) := by
  by_cases h1 : urlparse_path url = "/"
  · rw [resolved_file_home url h1] at hres
    exact ⟨html_head 200, by
      rw [do_GET_home fs fuel url h1,
        send_html_file_fb fs fuel _ 200 e hres he hf]⟩
  · by_cases h2 : urlparse_path url = "/search"
    · rw [resolved_file_search url h2] at hres
      exact ⟨html_head 200, by
        rw [do_GET_search fs fuel url h2,
          send_html_file_fb fs fuel _ 200 e hres he hf]⟩
    · by_cases h3 : str_startsWith (urlparse_path url) "/static/" = true
      · rw [resolved_file_static url h1 h2 h3] at hres
        exact ⟨[], by
          rw [do_GET_static fs fuel url h1 h2 h3,
            send_static_fb fs fuel url e hres he (by omega)]
          simp⟩
      · rw [resolved_file_other url h1 h2 (by simpa using h3)] at hres
        exact ⟨html_head 200, by
          rw [do_GET_other fs fuel url h1 h2 (by simpa using h3),
            send_html_file_fb fs fuel _ 200 e hres he hf]⟩

/-- C1 witness: the absent static file /static/missing.css on the sample
layout fsA yields the error-page body [4] with status 404. -/
theorem c1_read_failure_404_witness :
    ∃ pre, do_GET fsA 2 "/static/missing.css" = (pre ++ html_response 404 [4], true) :=
  c1_read_failure_404 fsA 2 "/static/missing.css" [4] (by decide) (by decide)
    (by omega)

/-- C2: every path other than "/", "/search" and "/static/"-prefixed ones is
answered with the bytes of templates/error.html, status 200 and Content-Type
text/html, when that file reads. -/
theorem c2_unmatched_route_200 (fs : FS) (fuel : Nat) (p : String) (err : Bytes)
    (hp : urlparse_path p = p) (h1 : p ≠ "/") (h2 : p ≠ "/search")
    (h3 : str_startsWith p "/static/" = false)
    (he : fs "templates/error.html" = some err) (hf : 1 ≤ fuel) :
    do_GET fs fuel p = (html_response 200 err, true) := by
  rw [do_GET_other fs fuel p (by rw [hp]; exact h1) (by rw [hp]; exact h2)
    (by rw [hp]; exact h3)]
  exact send_html_file_ok fs fuel _ 200 err he hf

/-- C2 witness: GET /nope on the sample layout fsA answers with the bytes
[3] of templates/error.html and status 200. -/
theorem c2_unmatched_route_200_witness :
    do_GET fsA 1 "/nope" = (html_response 200 [3], true) :=
  c2_unmatched_route_200 fsA 1 "/nope" [3] (by decide) (by decide) (by decide)
    (by decide) (by decide) (by omega)

/-- C3: a "/static/"-prefixed path whose resolved file (the path with only
the leading slash stripped) reads is answered with the bytes of that file, status
200, and a Content-Type looked up from the file extension in the MIME table,
application/octet-stream when the extension is unrecognized. -/
theorem c3_static_served (fs : FS) (fuel : Nat) (url : String) (d : Bytes)
    (hp : urlparse_path url = url)
    (hs : str_startsWith url "/static/" = true)
    (hd : fs (drop_lead url) = some d) :
    do_GET fs fuel url =
      ([Event.sendResponse 200,
        Event.sendHeader "Content-type"
          ((guess_type (drop_lead url)).getD "application/octet-stream"),
        Event.endHeaders, Event.write d], true) := by
  have h1 : urlparse_path url ≠ "/" := by
    rw [hp]; intro h; rw [h] at hs; exact absurd hs (by decide)
  have h2 : urlparse_path url ≠ "/search" := by
    rw [hp]; intro h; rw [h] at hs; exact absurd hs (by decide)
  have h3 : str_startsWith (urlparse_path url) "/static/" = true := by
    rw [hp]; exact hs
  rw [do_GET_static fs fuel url h1 h2 h3]
  exact send_static_ok fs fuel url d hd

/-- C3 witness: /static/style.css is served from static/style.css with
Content-Type text/css on fsA, and an unrecognized extension produces
Content-Type application/octet-stream (checked by evaluating guess_type). -/
theorem c3_static_served_witness :
    do_GET fsA 2 "/static/style.css" =
      ([Event.sendResponse 200,
        Event.sendHeader "Content-type"
          ((guess_type (drop_lead "/static/style.css")).getD "application/octet-stream"),
        Event.endHeaders, Event.write [5]], true) ∧
    (guess_type (drop_lead "/static/style.css")).getD "application/octet-stream" = "text/css" ∧
    (guess_type "static/unknownext.xyz").getD "application/octet-stream" =
      "application/octet-stream" :=
  ⟨c3_static_served fsA 2 "/static/style.css" [5] (by decide) (by decide)
    (by decide), by decide, by decide⟩

/-- C8: GET / answers with the bytes of templates/index.html, status 200,
Content-Type text/html, and GET /search with the bytes of
templates/search.html, status 200, Content-Type text/html, when those files
read. -/
theorem c8_home_and_search (fs : FS) (fuel : Nat) (d1 d2 : Bytes)
    (hi : fs "templates/index.html" = some d1)
    (hs : fs "templates/search.html" = some d2) (hf : 1 ≤ fuel) :
    do_GET fs fuel "/" = (html_response 200 d1, true) ∧
    do_GET fs fuel "/search" = (html_response 200 d2, true) := by
  constructor
  · rw [do_GET_home fs fuel "/" (by decide)]
    exact send_html_file_ok fs fuel _ 200 d1 hi hf
  · rw [do_GET_search fs fuel "/search" (by decide)]
    exact send_html_file_ok fs fuel _ 200 d2 hs hf

/-- C8 witness: on the sample layout fsA, GET / serves [1] and GET /search
serves [2], both with status 200. -/
theorem c8_home_and_search_witness :
    do_GET fsA 1 "/" = (html_response 200 [1], true) ∧
    do_GET fsA 1 "/search" = (html_response 200 [2], true) :=
  c8_home_and_search fsA 1 [1] [2] (by decide) (by decide) (by omega)

/-- C5 counterexample: on a disk where "error.html" holds [1] and
"templates/error.html" holds [2], the read-failure fallback of the static handler
for /static/missing.css serves [1] — the bytes of "error.html" — and not
the bytes of templates/error.html the claim predicts. -/
theorem c5_counterexample :
    fsBoth "error.html" = some [1] ∧
    fsBoth "templates/error.html" = some [2] ∧
    do_GET fsBoth 3 "/static/missing.css" = (html_response 404 [1], true) ∧
    ¬ do_GET fsBoth 3 "/static/missing.css" = (html_response 404 [2], true) := by
  decide

/-- C5 amended: both read-failure fallback call sites resolve the same
project-root-relative file "error.html" — the HTML-file handler falls back
to it directly, and the fallback of the static handler routes through the
HTML-file handler with that same path, so its 404 body is also the bytes of
"error.html". -/
theorem c5_both_fallbacks_use_error_html (fs : FS) (fuel : Nat)
    (filename url : String) (status : Nat) (e : Bytes)
    (hn : fs filename = none) (hu : fs (drop_lead url) = none)
    (he : fs "error.html" = some e) (hf : 2 ≤ fuel) :
    send_html_file fs fuel filename status =
      (html_head status ++ html_response 404 e, true) ∧
    send_static fs fuel url = (html_response 404 e, true) :=
  ⟨send_html_file_fb fs fuel filename status e hn he hf,
   send_static_fb fs fuel url e hu he (by omega)⟩

/-- C5 amended witness: on fsBoth both fallbacks serve the bytes [1] of
"error.html". -/
theorem c5_both_fallbacks_use_error_html_witness :
    send_html_file fsBoth 2 "templates/index.html" 200 =
      (html_head 200 ++ html_response 404 [1], true) ∧
    send_static fsBoth 2 "/static/missing.css" = (html_response 404 [1], true) :=
  c5_both_fallbacks_use_error_html fsBoth 2 "templates/index.html"
    "/static/missing.css" 200 [1] (by decide) (by decide) (by decide) (by omega)

/-- C6 counterexample: two request targets with the same path portion that
differ only in the query string get different responses — /static/a.css is
served with status 200 while /static/a.css?x=1 falls back to the 404 error
page, because send_static keeps the query string in the file path. -/
theorem c6_counterexample :
    do_GET fsStatic 2 "/static/a.css" =
      ([Event.sendResponse 200, Event.sendHeader "Content-type" "text/css",
        Event.endHeaders, Event.write [7]], true) ∧
    do_GET fsStatic 2 "/static/a.css?x=1" = (html_response 404 [9], true) ∧
    ¬ do_GET fsStatic 2 "/static/a.css" = do_GET fsStatic 2 "/static/a.css?x=1" := by
  decide

/-- C6 amended: responses are query-independent on the non-static branches:
two request targets whose parsed path components agree and do not carry the
"/static/" prefix get identical responses; on the static branch the raw
request target (query included) becomes the file path, so query independence
fails there. -/
theorem c6_query_independent_nonstatic (fs : FS) (fuel : Nat) (u1 u2 : String)
    (h : urlparse_path u1 = urlparse_path u2)
    (hs : str_startsWith (urlparse_path u1) "/static/" = false) :
    do_GET fs fuel u1 = do_GET fs fuel u2 := by
  rw [h] at hs
  unfold do_GET
  rw [h]
  simp [hs]

/-- C6 amended witness: /nope?a=1 and /nope#frag share the parsed path /nope
and get identical responses on fsA. -/
theorem c6_query_independent_nonstatic_witness :
    do_GET fsA 2 "/nope?a=1" = do_GET fsA 2 "/nope#frag" :=
  c6_query_independent_nonstatic fsA 2 "/nope?a=1" "/nope#frag" (by decide)
    (by decide)

/-- C7 counterexample: with a fully unreadable disk, a run of send_html_file
under recursion bound 5 emits five status lines — the fallback is re-entered
again and again, refuting that no further fallback is attempted — and the
run does not complete normally. -/
theorem c7_counterexample :
    ¬ ((send_html_file fsNone 5 "templates/index.html" 200).1.countP
        isSendResponse ≤ 2 ∧
       (send_html_file fsNone 5 "templates/index.html" 200).2 = true) := by
  decide

/-- C7 amended: when "error.html" is unreadable, a failed read makes
send_html_file re-enter its own fallback at every level of the recursion
bound: the run emits one status line per available level and ends
abnormally (a recursion-limit abort), leaving the response incomplete. -/
theorem c7_nested_failure_recurses (fs : FS) (he : fs "error.html" = none) :
    ∀ (fuel : Nat) (filename : String) (status : Nat), fs filename = none →
      (send_html_file fs fuel filename status).2 = false ∧
      (send_html_file fs fuel filename status).1.countP isSendResponse = fuel := by
  intro fuel
  induction fuel with
  | zero => intro filename status hn; simp [send_html_file]
  | succ m ih =>
    intro filename status hn
    have h2 := ih "error.html" 404 he
    simp [send_html_file, hn, List.countP_cons, List.countP_append,
      isSendResponse, h2.1, h2.2]

/-- C7 amended witness: on the unreadable disk fsNone with recursion bound 3
the run aborts abnormally after emitting three status lines. -/
theorem c7_nested_failure_recurses_witness :
    (send_html_file fsNone 3 "templates/index.html" 200).2 = false ∧
    (send_html_file fsNone 3 "templates/index.html" 200).1.countP
      isSendResponse = 3 :=
  c7_nested_failure_recurses fsNone (by decide) 3 "templates/index.html" 200
    (by decide)

/-- C9: request handling is stateless and deterministic across the serve
loop: whenever two positions of the request sequence hold the same path, the
corresponding responses of the run are identical. -/
theorem c9_idempotent (fs : FS) (fuel : Nat) (reqs : List String)
    (i j : Nat) (p : String)
    (hi : reqs[i]? = some p) (hj : reqs[j]? = some p) :
    (serve fs fuel reqs)[i]? = (serve fs fuel reqs)[j]? := by
  simp [serve, List.getElem?_map, hi, hj]

/-- C9 witness: in the run of the request sequence [/, /nope, /], positions
0 and 2 hold the same path and receive identical responses. -/
theorem c9_idempotent_witness :
    (serve fsA 2 ["/", "/nope", "/"])[0]? = (serve fsA 2 ["/", "/nope", "/"])[2]? :=
  c9_idempotent fsA 2 ["/", "/nope", "/"] 0 2 "/" (by decide) (by decide)

/-- C10: the static branch performs no normalization or containment check:
the request /static/../secret.txt carries the "/static/" prefix, is served
from the path "static/../secret.txt" (the request string with only the
leading slash removed), and that path resolves outside the static/ tree —
on a disk whose only file is secret.txt at the project root, the handler
serves its bytes with status 200. -/
theorem c10_path_traversal :
    str_startsWith "/static/../secret.txt" "/static/" = true ∧
    drop_lead "/static/../secret.txt" = "static/../secret.txt" ∧
    str_startsWith (normalizePath "static/../secret.txt") "static/" = false ∧
    normalizePath "static/../secret.txt" = "secret.txt" ∧
    do_GET fsSecret 1 "/static/../secret.txt" =
      ([Event.sendResponse 200, Event.sendHeader "Content-type" "text/plain",
        Event.endHeaders, Event.write [42]], true) := by
  decide

/-- C4 counterexample: when templates/index.html is unreadable and
"error.html" reads, GET / writes two status lines (the header block of the
failed attempt was already on the wire before the read, and the 404 fallback
writes a second full header block), refuting that exactly one full HTTP
response is written. -/
theorem c4_counterexample :
    (do_GET fsOnlyErr 2 "/").1.countP isSendResponse = 2 ∧
    ¬ (do_GET fsOnlyErr 2 "/").1.countP isSendResponse = 1 := by
  decide

/-- C4 amended: every completed run writes exactly one body and well-formed
header blocks, but the number of status lines depends on the branch: one on
every successful read and on the fallback of the static branch (which fails
before writing anything), two when a read fails in an HTML branch (the stale
header block of the failed attempt precedes the full 404 fallback
response). -/
theorem c4_response_shape (fs : FS) (fuel : Nat) (url : String) (e : Bytes)
    (he : fs "error.html" = some e) (hf : 2 ≤ fuel) :
    (do_GET fs fuel url).2 = true ∧
    (do_GET fs fuel url).1.countP isWrite = 1 ∧
    (do_GET fs fuel url).1.countP isSendResponse =
      (if fs (resolved_file url) = none then
        (if str_startsWith (urlparse_path url) "/static/" = true then 1 else 2)
       else 1) := by
  by_cases h1 : urlparse_path url = "/"
  · have hss : str_startsWith (urlparse_path url) "/static/" = false := by
      rw [h1]; decide
    rw [resolved_file_home url h1, do_GET_home fs fuel url h1]
    cases hd : fs "templates/index.html" with
    | some d =>
      rw [send_html_file_ok fs fuel _ 200 d hd (by omega)]
      simp [hd, hss, html_response, List.countP_cons, isSendResponse, isWrite]
    | none =>
      rw [send_html_file_fb fs fuel _ 200 e hd he hf]
      simp [hd, hss, html_head, html_response, List.countP_append,
        List.countP_cons, isSendResponse, isWrite]
  · by_cases h2 : urlparse_path url = "/search"
    · have hss : str_startsWith (urlparse_path url) "/static/" = false := by
        rw [h2]; decide
      rw [resolved_file_search url h2, do_GET_search fs fuel url h2]
      cases hd : fs "templates/search.html" with
      | some d =>
        rw [send_html_file_ok fs fuel _ 200 d hd (by omega)]
        simp [hd, hss, html_response, List.countP_cons, isSendResponse, isWrite]
      | none =>
        rw [send_html_file_fb fs fuel _ 200 e hd he hf]
        simp [hd, hss, html_head, html_response, List.countP_append,
          List.countP_cons, isSendResponse, isWrite]
    · by_cases h3 : str_startsWith (urlparse_path url) "/static/" = true
      · rw [resolved_file_static url h1 h2 h3, do_GET_static fs fuel url h1 h2 h3]
        cases hd : fs (drop_lead url) with
        | some d =>
          rw [send_static_ok fs fuel url d hd]
          simp [hd, h3, List.countP_cons, isSendResponse, isWrite]
        | none =>
          rw [send_static_fb fs fuel url e hd he (by omega)]
          simp [hd, h3, html_response, List.countP_cons, isSendResponse, isWrite]
      · have h3f : str_startsWith (urlparse_path url) "/static/" = false := by
          simpa using h3
        rw [resolved_file_other url h1 h2 h3f, do_GET_other fs fuel url h1 h2 h3f]
        cases hd : fs "templates/error.html" with
        | some d =>
          rw [send_html_file_ok fs fuel _ 200 d hd (by omega)]
          simp [hd, h3f, html_response, List.countP_cons, isSendResponse, isWrite]
        | none =>
          rw [send_html_file_fb fs fuel _ 200 e hd he hf]
          simp [hd, h3f, html_head, html_response, List.countP_append,
            List.countP_cons, isSendResponse, isWrite]

/-- C4 amended witness: on fsOnlyErr, GET / completes, writes one body, and
writes two status lines since templates/index.html is unreadable and the
route is not a static one. -/
theorem c4_response_shape_witness :
    (do_GET fsOnlyErr 2 "/").2 = true ∧
    (do_GET fsOnlyErr 2 "/").1.countP isWrite = 1 ∧
    (do_GET fsOnlyErr 2 "/").1.countP isSendResponse =
      (if fsOnlyErr (resolved_file "/") = none then
        (if str_startsWith (urlparse_path "/") "/static/" = true then 1 else 2)
       else 1) :=
  c4_response_shape fsOnlyErr 2 "/" [9] (by decide) (by omega)
